import Mathlib

/-!
Verification of the resource-quota calculator of kuota-calc
(internal/calc: calc.go, deployment.go, statefulset.go, job.go,
cronjob.go, pod.go; cmd: Total aggregation).

Every Kubernetes quantity is embedded by its resolved milli-value
(`resource.Quantity.MilliValue`, an integer): all arithmetic the program
performs on quantities (`Add`, `SetMilli`, `MilliValue` comparisons) is
exact integer arithmetic on that representation.  `Resources.Mul` in the
source converts the milli-value to `float64`, multiplies, and truncates
back; the float64 round-trip of an integer is modelled exactly by
`f64round` (round to nearest, ties to even, 53-bit significand).
-/

namespace KuotaCalc

/-- The number of halvings needed to bring `m` below `2^53` (fuel-based
so that it reduces in the kernel). -/
def f64shiftAux : Nat → Nat → Nat → Nat
  | 0, _, s => s
  | fuel + 1, m, s => if m < 2 ^ 53 then s else f64shiftAux fuel (m / 2) (s + 1)

/-- Round an integer to the nearest `float64`-representable integer
(round half to even, 53 significant bits).  Models Go's `float64(x)` for
an `int64` argument.  Conversions back to `int64` are exact for the
magnitudes reachable here, so they are not modelled separately. -/
def f64roundNat (n : Nat) : Nat :=
  if n ≤ 2 ^ 53 then n
  else
    let shift := f64shiftAux n n 0
    let q := n / 2 ^ shift
    let r := n % 2 ^ shift
    let half := 2 ^ (shift - 1)
    let q' :=
      if half < r then q + 1
      else if r < half then q
      else if q % 2 = 0 then q else q + 1
    q' * 2 ^ shift

/-- Signed version of `f64roundNat`; float64 rounding is symmetric. -/
def f64round (x : Int) : Int :=
  if x < 0 then -(f64roundNat x.natAbs : Int) else (f64roundNat x.natAbs : Int)

/-- Models `int64(float64(x) * y)` from `Resources.Mul` (calc.go), for a
multiplier `y` that is an exactly representable integer-valued float64 —
which covers every call site: `1.0` and `float64(n)` for an `int32` `n`.
The product of the two floats rounds once to nearest even. -/
def mulFactor (x y : Int) : Int :=
  f64round (f64round x * y)

/-- calc.go `Resources`: requests and limits for cpu and memory, each
embedded as its milli-value. -/
structure Resources where
  CPUMin : Int
  CPUMax : Int
  MemoryMin : Int
  MemoryMax : Int
  deriving Repr, DecidableEq

/-- The zero value `Resources{}`. -/
def Resources.zero : Resources := ⟨0, 0, 0, 0⟩

/-- calc.go `Resources.Add`: element-wise sum (Quantity.Add is exact). -/
def Resources.Add (r y : Resources) : Resources :=
  { CPUMin := r.CPUMin + y.CPUMin
    CPUMax := r.CPUMax + y.CPUMax
    MemoryMin := r.MemoryMin + y.MemoryMin
    MemoryMax := r.MemoryMax + y.MemoryMax }

/-- calc.go `Resources.Mul`: each field becomes
`SetMilli(int64(float64(MilliValue()) * y))`.  The factor is restricted
to the integer-valued float64 multipliers the program uses. -/
def Resources.Mul (r : Resources) (y : Int) : Resources :=
  { CPUMin := mulFactor r.CPUMin y
    CPUMax := mulFactor r.CPUMax y
    MemoryMin := mulFactor r.MemoryMin y
    MemoryMax := mulFactor r.MemoryMax y }

/-- calc.go `Resources.MulInt32`: `r.Mul(float64(y))`. -/
def Resources.MulInt32 (r : Resources) (y : Int) : Resources :=
  r.Mul y

/-- calc.go `maxQuantity`: the quantity with the greater milli-value,
preferring the second on ties. -/
def maxQuantity (q1 q2 : Int) : Int :=
  if q1 > q2 then q1 else q2

/-- A container's resource requirements; a missing declaration is the
zero quantity (`Requests.Cpu()` etc. return zero when absent). -/
structure ResourceRequirements where
  requestsCpu : Int
  limitsCpu : Int
  requestsMemory : Int
  limitsMemory : Int
  deriving Repr, DecidableEq

/-- v1.Container restricted to the only field the calculator reads. -/
structure Container where
  resources : ResourceRequirements
  deriving Repr, DecidableEq

/-- v1.PodSpec restricted to the fields the calculator reads. -/
structure PodSpec where
  containers : List Container
  initContainers : List Container
  deriving Repr, DecidableEq

/-- calc.go `PodResources`. -/
structure PodResources where
  Containers : Resources
  InitContainers : Resources
  MaxResources : Resources
  deriving Repr, DecidableEq

/-- One iteration of the accumulation loops in `calcPodResources`. -/
def addContainerResources (acc : Resources) (c : Container) : Resources :=
  { CPUMin := acc.CPUMin + c.resources.requestsCpu
    CPUMax := acc.CPUMax + c.resources.limitsCpu
    MemoryMin := acc.MemoryMin + c.resources.requestsMemory
    MemoryMax := acc.MemoryMax + c.resources.limitsMemory }

/-- calc.go `calcPodResources`: sum the ordinary containers and the init
containers separately, then take the element-wise `maxQuantity`. -/
def calcPodResources (podSpec : PodSpec) : PodResources :=
  let containers := podSpec.containers.foldl addContainerResources Resources.zero
  let initContainers := podSpec.initContainers.foldl addContainerResources Resources.zero
  { Containers := containers
    InitContainers := initContainers
    MaxResources :=
      { CPUMin := maxQuantity containers.CPUMin initContainers.CPUMin
        CPUMax := maxQuantity containers.CPUMax initContainers.CPUMax
        MemoryMin := maxQuantity containers.MemoryMin initContainers.MemoryMin
        MemoryMax := maxQuantity containers.MemoryMax initContainers.MemoryMax } }

/-- calc.go `Details`. -/
structure Details where
  Version : String
  Kind : String
  Name : String
  Strategy : String
  Replicas : Int
  MaxReplicas : Int
  deriving Repr, DecidableEq

/-- calc.go `ResourceUsage` (current shape: steady-state and
rollout-peak totals plus metadata). -/
structure ResourceUsage where
  NormalResources : Resources
  RolloutResources : Resources
  Details : Details
  deriving Repr, DecidableEq

/-- intstr.IntOrString: a strategy threshold, either a literal integer
or a string (a percentage such as "25%"). -/
inductive IntOrString where
  | ofInt (i : Int)
  | ofString (s : String)
  deriving Repr, DecidableEq

/-- Digit accumulation loop of `strconv.Atoi`. -/
def atoiDigitsAux : List Char → Nat → Option Nat
  | [], acc => some acc
  | c :: cs, acc =>
      if '0' ≤ c ∧ c ≤ '9' then atoiDigitsAux cs (acc * 10 + (c.toNat - '0'.toNat))
      else none

/-- Models `strconv.Atoi`: optional sign followed by at least one
decimal digit.  (Atoi additionally errors on int64 overflow; the
overflow path is outside the magnitudes exercised here.) -/
def atoiChars : List Char → Option Int
  | [] => none
  | '+' :: rest => if rest = [] then none else (atoiDigitsAux rest 0).map Int.ofNat
  | '-' :: rest => if rest = [] then none else (atoiDigitsAux rest 0).map fun n => -(Int.ofNat n)
  | cs => (atoiDigitsAux cs 0).map Int.ofNat

/-- intstr.GetScaledValueFromIntOrPercent: a literal integer passes
through; a string must end in a percent sign, whose prefix is parsed
with Atoi, and the percentage is scaled against `total`, rounding up or
down as requested.  The source computes
`math.Ceil/Floor(float64(v) * float64(total) / 100)`; the float64
multiply-and-divide is embedded by its exact rational value, so the
scaling is the exact integer ceiling/floor of `v * total / 100` (the
float and rational results agree at every magnitude this program can
reach). -/
def getScaledValueFromIntOrPercent (v : IntOrString) (total : Int) (roundUp : Bool) :
    Except String Int :=
  match v with
  | IntOrString.ofInt i => Except.ok i
  | IntOrString.ofString s =>
      let cs := s.data
      if cs.getLast? = some '%' then
        match atoiChars cs.dropLast with
        | some p =>
            Except.ok (if roundUp then -(Int.fdiv (-(p * total)) 100) else Int.fdiv (p * total) 100)
        | none => Except.error "invalid value for IntOrString"
      else Except.error "invalid type: string is not a percentage"

/-- appsv1.PodTemplateSpec restricted to its pod spec. -/
structure PodTemplateSpec where
  spec : PodSpec
  deriving Repr, DecidableEq

/-- appsv1.StatefulSetUpdateStrategy.  The `rollingUpdate` field stands
for the `*RollingUpdateStatefulSetStrategy` pointer collapsed to its
single `MaxUnavailable` field, which statefulset.go dereferences
unconditionally once the pointer is non-nil. -/
structure StatefulSetUpdateStrategy where
  type : String
  rollingUpdate : Option IntOrString
  deriving Repr, DecidableEq

/-- appsv1.StatefulSetSpec restricted to the fields statefulset.go
reads.  `replicas` models the `*int32` pointer. -/
structure StatefulSetSpec where
  replicas : Option Int
  updateStrategy : StatefulSetUpdateStrategy
  template : PodTemplateSpec
  deriving Repr, DecidableEq

/-- appsv1.StatefulSet with its type/object metadata flattened. -/
structure StatefulSet where
  apiVersion : String
  kind : String
  name : String
  spec : StatefulSetSpec
  deriving Repr, DecidableEq

/-- statefulset.go replica resolution: a nil `spec.replicas` defaults
to 1. -/
def stsReplicas (s : StatefulSet) : Int :=
  match s.spec.replicas with
  | some r => r
  | none => 1

/-- The scaling step of the RollingUpdate branch of statefulset.go:
scale the threshold against `replicas` rounding UP, then bounds-check
the scaled value against int32. -/
def stsRollingParams (maxUnavailableValue : IntOrString) (replicas : Int) :
    Except String (Int × String) :=
  match getScaledValueFromIntOrPercent maxUnavailableValue replicas true with
  | Except.error e => Except.error e
  | Except.ok maxUnavailableInt =>
      if maxUnavailableInt < -(2 ^ 31) ∨ 2 ^ 31 - 1 < maxUnavailableInt then
        Except.error "maxUnavailableInt out of int32 boundaries"
      else Except.ok (maxUnavailableInt, "RollingUpdate")

/-- The strategy switch of statefulset.go: yields the effective
`maxUnavailable` and the effective strategy string recorded in
`Details`.  `OnDelete` takes `maxUnavailable = replicas`; an empty type
becomes `RollingUpdate` with the default threshold 1; `RollingUpdate`
takes its threshold (default 1 when the parameter struct is nil) through
`stsRollingParams`.  The switch has no default case, so any other type
string leaves the zero-initialised `maxUnavailable = 0` and the
strategy string untouched. -/
def stsParams (strategy : StatefulSetUpdateStrategy) (replicas : Int) :
    Except String (Int × String) :=
  if strategy.type = "OnDelete" then
    Except.ok (replicas, strategy.type)
  else if strategy.type = "" ∨ strategy.type = "RollingUpdate" then
    stsRollingParams
      (if strategy.type = "" then IntOrString.ofInt 1
       else
         match strategy.rollingUpdate with
         | none => IntOrString.ofInt 1
         | some v => v)
      replicas
  else
    Except.ok (0, strategy.type)

/-- statefulset.go `statefulSet`: resolve replicas and the update
strategy, then
`rollout = Containers×(replicas−maxUnavailable) + MaxResources×maxUnavailable`,
`normal = Containers×replicas`, `MaxReplicas = replicas`. -/
def statefulSet (s : StatefulSet) : Except String ResourceUsage :=
  match stsParams s.spec.updateStrategy (stsReplicas s) with
  | Except.error e => Except.error e
  | Except.ok (maxUnavailable, strategyType) =>
      let podResources := calcPodResources s.spec.template.spec
      let rolloutResources :=
        (podResources.Containers.MulInt32 (stsReplicas s - maxUnavailable)).Add
          (podResources.MaxResources.MulInt32 maxUnavailable)
      let normalResources := podResources.Containers.MulInt32 (stsReplicas s)
      Except.ok
        { NormalResources := normalResources
          RolloutResources := rolloutResources
          Details :=
            { Version := s.apiVersion
              Kind := s.kind
              Name := s.name
              Strategy := strategyType
              Replicas := stsReplicas s
              MaxReplicas := stsReplicas s } }

/-- appsv1.RollingUpdateDeployment: both thresholds, each dereferenced
unconditionally by deployment.go once the struct pointer is non-nil. -/
structure RollingUpdateDeployment where
  maxUnavailable : IntOrString
  maxSurge : IntOrString
  deriving Repr, DecidableEq

/-- appsv1.DeploymentStrategy. -/
structure DeploymentStrategy where
  type : String
  rollingUpdate : Option RollingUpdateDeployment
  deriving Repr, DecidableEq

/-- appsv1.DeploymentSpec restricted to the fields deployment.go reads;
`replicas` models the `*int32` pointer, which deployment.go
dereferences without a nil guard. -/
structure DeploymentSpec where
  replicas : Option Int
  strategy : DeploymentStrategy
  template : PodTemplateSpec
  deriving Repr, DecidableEq

/-- appsv1.Deployment with its type/object metadata flattened. -/
structure Deployment where
  apiVersion : String
  kind : String
  name : String
  spec : DeploymentSpec
  deriving Repr, DecidableEq

/-- Modelled from the spec: the strategy switch of the deployment
calculator at the current revision, whose deployment.go is not among
the source files (src holds the previous revision, which still folds
the thresholds into a single overhead factor).  Branching follows the
src deployment.go switch verbatim: `Recreate` takes
`maxUnavailable = replicas, maxSurge = 0`; an empty type becomes
`RollingUpdate` with both defaults "25%"; `RollingUpdate` with a nil
parameter struct also defaults both to "25%", scales `maxUnavailable`
rounding DOWN and `maxSurge` rounding UP, and bounds-checks the scaled
values against int32 (spec section 4.3/7); any other type is an error.
Yields `(maxUnavailable, maxSurge, effective strategy string)`.  The
scaling step over a resolved pair of thresholds is split into
`deploymentRollingParams`: `maxUnavailable` scales rounding DOWN,
`maxSurge` scales rounding UP, and both scaled values are
bounds-checked against int32. -/
def deploymentRollingParams (ru : RollingUpdateDeployment) (replicas : Int) :
    Except String (Int × Int × String) :=
  match getScaledValueFromIntOrPercent ru.maxUnavailable replicas false with
  | Except.error e => Except.error e
  | Except.ok maxUnavailable =>
      match getScaledValueFromIntOrPercent ru.maxSurge replicas true with
      | Except.error e => Except.error e
      | Except.ok maxSurge =>
          if maxUnavailable < -(2 ^ 31) ∨ 2 ^ 31 - 1 < maxUnavailable ∨
              maxSurge < -(2 ^ 31) ∨ 2 ^ 31 - 1 < maxSurge then
            Except.error "deployment: scaled value was out of bounds for int32"
          else Except.ok (maxUnavailable, maxSurge, "RollingUpdate")

/-- The strategy switch of the deployment calculator (see
`deploymentRollingParams` for provenance): `Recreate` takes
`maxUnavailable = replicas, maxSurge = 0`; an empty type becomes
`RollingUpdate` with both defaults "25%"; `RollingUpdate` with a nil
parameter struct also defaults both to "25%"; any other type is an
error. -/
def deploymentParams (strategy : DeploymentStrategy) (replicas : Int) :
    Except String (Int × Int × String) :=
  if strategy.type = "Recreate" then
    Except.ok (replicas, 0, strategy.type)
  else if strategy.type = "" ∨ strategy.type = "RollingUpdate" then
    deploymentRollingParams
      (if strategy.type = "" then
        ⟨IntOrString.ofString "25%", IntOrString.ofString "25%"⟩
       else
         match strategy.rollingUpdate with
         | none => ⟨IntOrString.ofString "25%", IntOrString.ofString "25%"⟩
         | some ru => ru)
      replicas
  else
    Except.error "deployment: deployment strategy is unknown"

/-- Modelled from the spec: the deployment calculator at the current
revision (its deployment.go is not among the source files; src holds
the previous revision).  The shape follows the src deployment.go
exactly where the revisions agree: `*replicas` is dereferenced without
a nil guard (`none` here models the nil-pointer panic), `replicas == 0`
returns the all-zero usage with `MaxReplicas = 0` before the strategy
is ever inspected.  The rollout formula and `MaxReplicas` follow the
spec table —
`rollout = Containers×(replicas−maxUnavailable) + MaxResources×(maxSurge+maxUnavailable)`,
`normal = Containers×replicas`, `MaxReplicas = replicas + maxSurge` —
which the expectations of src deployment_test.go reproduce. -/
def deployment (d : Deployment) : Option (Except String ResourceUsage) :=
  match d.spec.replicas with
  | none => none
  | some replicas =>
      some <|
        if replicas = 0 then
          Except.ok
            { NormalResources := Resources.zero
              RolloutResources := Resources.zero
              Details :=
                { Version := d.apiVersion
                  Kind := d.kind
                  Name := d.name
                  Strategy := d.spec.strategy.type
                  Replicas := replicas
                  MaxReplicas := replicas } }
        else
          match deploymentParams d.spec.strategy replicas with
          | Except.error e => Except.error e
          | Except.ok (maxUnavailable, maxSurge, strategyType) =>
              let podResources := calcPodResources d.spec.template.spec
              Except.ok
                { NormalResources := podResources.Containers.MulInt32 replicas
                  RolloutResources :=
                    (podResources.Containers.MulInt32 (replicas - maxUnavailable)).Add
                      (podResources.MaxResources.MulInt32 (maxSurge + maxUnavailable))
                  Details :=
                    { Version := d.apiVersion
                      Kind := d.kind
                      Name := d.name
                      Strategy := strategyType
                      Replicas := replicas
                      MaxReplicas := replicas + maxSurge } }

/-- batchV1.JobSpec restricted to its template. -/
structure JobSpec where
  template : PodTemplateSpec
  deriving Repr, DecidableEq

/-- batchV1.Job with its type/object metadata flattened. -/
structure Job where
  apiVersion : String
  kind : String
  name : String
  spec : JobSpec
  deriving Repr, DecidableEq

/-- job.go `job`: `NormalResources = Containers`,
`RolloutResources = MaxResources`, replicas and MaxReplicas 0. -/
def job (j : Job) : ResourceUsage :=
  let podResources := calcPodResources j.spec.template.spec
  { NormalResources := podResources.Containers
    RolloutResources := podResources.MaxResources
    Details :=
      { Version := j.apiVersion
        Kind := j.kind
        Name := j.name
        Strategy := ""
        Replicas := 0
        MaxReplicas := 0 } }

/-- batchV1.JobTemplateSpec restricted to its job spec. -/
structure JobTemplateSpec where
  spec : JobSpec
  deriving Repr, DecidableEq

/-- batchV1.CronJobSpec restricted to its job template. -/
structure CronJobSpec where
  jobTemplate : JobTemplateSpec
  deriving Repr, DecidableEq

/-- batchV1.CronJob with its type/object metadata flattened. -/
structure CronJob where
  apiVersion : String
  kind : String
  name : String
  spec : CronJobSpec
  deriving Repr, DecidableEq

/-- cronjob.go `cronjob`: same as `job`, over the nested pod template of
the job template. -/
def cronjob (c : CronJob) : ResourceUsage :=
  let podResources := calcPodResources c.spec.jobTemplate.spec.template.spec
  { NormalResources := podResources.Containers
    RolloutResources := podResources.MaxResources
    Details :=
      { Version := c.apiVersion
        Kind := c.kind
        Name := c.name
        Strategy := ""
        Replicas := 0
        MaxReplicas := 0 } }

/-- v1.Pod with its type/object metadata flattened. -/
structure Pod where
  apiVersion : String
  kind : String
  name : String
  spec : PodSpec
  deriving Repr, DecidableEq

/-- Modelled from the spec: the pod calculator at the current revision
(its pod.go is not among the source files; src holds an old revision
that predates `NormalResources`/`RolloutResources`).  Per the spec
table for Job/CronJob/Pod — and exactly like the src job.go and
cronjob.go of the current revision —
`NormalResources = Containers`, `RolloutResources = MaxResources`,
replicas and MaxReplicas 0. -/
def pod (p : Pod) : ResourceUsage :=
  let podResources := calcPodResources p.spec
  { NormalResources := podResources.Containers
    RolloutResources := podResources.MaxResources
    Details :=
      { Version := p.apiVersion
        Kind := p.kind
        Name := p.name
        Strategy := ""
        Replicas := 0
        MaxReplicas := 0 } }

/-- Descending insertion for `sortDesc`. -/
def insertDesc (x : Int) : List Int → List Int
  | [] => [x]
  | y :: ys => if x ≥ y then x :: y :: ys else y :: insertDesc x ys

/-- Sort a list of deltas in descending order. -/
def sortDesc : List Int → List Int
  | [] => []
  | x :: xs => insertDesc x (sortDesc xs)

/-- Modelled from the spec: `calc.Total` of the current revision is not
among the source files (only its caller, `printSummary` in the cmd
package, is).  Spec section 4.4: a negative `maxRollout` sums every
`RolloutResources`; otherwise the total is the sum of every
`NormalResources` plus, independently per resource dimension, the sum
of the `maxRollout` largest per-workload deltas
`RolloutResources − NormalResources`. -/
def Total (maxRollout : Int) (usages : List ResourceUsage) : Resources :=
  if maxRollout < 0 then
    usages.foldl (fun acc u => acc.Add u.RolloutResources) Resources.zero
  else
    let normal := usages.foldl (fun acc u => acc.Add u.NormalResources) Resources.zero
    let top (f : ResourceUsage → Int) : Int :=
      ((sortDesc (usages.map f)).take maxRollout.toNat).sum
    { CPUMin := normal.CPUMin + top fun u => u.RolloutResources.CPUMin - u.NormalResources.CPUMin
      CPUMax := normal.CPUMax + top fun u => u.RolloutResources.CPUMax - u.NormalResources.CPUMax
      MemoryMin :=
        normal.MemoryMin + top fun u => u.RolloutResources.MemoryMin - u.NormalResources.MemoryMin
      MemoryMax :=
        normal.MemoryMax + top fun u => u.RolloutResources.MemoryMax - u.NormalResources.MemoryMax }

/-! Concrete inputs used by the witnesses and counterexamples below.
Milli-values follow examples/deployment.yaml where applicable
(250m/500m cpu; memory kept as small abstract milli-values). -/

/-- The container of examples/deployment.yaml (cpu request 250m, cpu
limit 500m; memory milli-values abstracted to 64/256). -/
def c250 : Container := ⟨⟨250, 500, 64, 256⟩⟩

/-- The Deployment of examples/deployment.yaml: 10 replicas,
RollingUpdate with explicit "25%"/"25%". -/
def dEx : Deployment :=
  { apiVersion := "apps/v1", kind := "Deployment", name := "myapp"
    spec :=
      { replicas := some 10
        strategy :=
          { type := "RollingUpdate"
            rollingUpdate := some ⟨IntOrString.ofString "25%", IntOrString.ofString "25%"⟩ }
        template := ⟨⟨[c250], []⟩⟩ } }

/-- The same Deployment with RollingUpdate and no explicit thresholds
(both default to "25%"). -/
def dDef : Deployment :=
  { apiVersion := "apps/v1", kind := "Deployment", name := "myapp"
    spec :=
      { replicas := some 10
        strategy := { type := "RollingUpdate", rollingUpdate := none }
        template := ⟨⟨[c250], []⟩⟩ } }

/-- A Deployment with zero replicas and a strategy type no branch
recognises. -/
def dZero : Deployment :=
  { apiVersion := "apps/v1", kind := "Deployment", name := "zero"
    spec :=
      { replicas := some 0
        strategy := { type := "Bogus", rollingUpdate := none }
        template := ⟨⟨[c250], []⟩⟩ } }

/-- A Deployment whose `spec.replicas` pointer is nil. -/
def dNil : Deployment :=
  { apiVersion := "apps/v1", kind := "Deployment", name := "nil"
    spec :=
      { replicas := none
        strategy := { type := "RollingUpdate", rollingUpdate := none }
        template := ⟨⟨[c250], []⟩⟩ } }

/-- The StatefulSet of the C3 example: 3 replicas, OnDelete, each pod
requesting 250m cpu, no init container. -/
def sOnDel : StatefulSet :=
  { apiVersion := "apps/v1", kind := "StatefulSet", name := "myapp"
    spec :=
      { replicas := some 3
        updateStrategy := { type := "OnDelete", rollingUpdate := none }
        template := ⟨⟨[⟨⟨250, 1000, 2048, 4096⟩⟩], []⟩⟩ } }

/-- The expected ResourceUsage of `sOnDel`. -/
def uOnDel : ResourceUsage :=
  ⟨⟨750, 3000, 6144, 12288⟩, ⟨750, 3000, 6144, 12288⟩,
    ⟨"apps/v1", "StatefulSet", "myapp", "OnDelete", 3, 3⟩⟩

/-- A StatefulSet with an unrecognised strategy type, one replica, a
100m main container and a 500m init container. -/
def sFoo : StatefulSet :=
  { apiVersion := "apps/v1", kind := "StatefulSet", name := "foo"
    spec :=
      { replicas := some 1
        updateStrategy := { type := "Foo", rollingUpdate := none }
        template := ⟨⟨[⟨⟨100, 0, 0, 0⟩⟩], [⟨⟨500, 0, 0, 0⟩⟩]⟩⟩ } }

/-- A StatefulSet with RollingUpdate and maxUnavailable "25%" over 10
replicas, a 100m main container and a 500m init container. -/
def sPct : StatefulSet :=
  { apiVersion := "apps/v1", kind := "StatefulSet", name := "pct"
    spec :=
      { replicas := some 10
        updateStrategy :=
          { type := "RollingUpdate", rollingUpdate := some (IntOrString.ofString "25%") }
        template := ⟨⟨[⟨⟨100, 0, 0, 0⟩⟩], [⟨⟨500, 0, 0, 0⟩⟩]⟩⟩ } }

/-- A StatefulSet whose `spec.replicas` pointer is nil. -/
def sNil : StatefulSet :=
  { apiVersion := "apps/v1", kind := "StatefulSet", name := "nil"
    spec :=
      { replicas := none
        updateStrategy := { type := "", rollingUpdate := none }
        template := ⟨⟨[⟨⟨250, 1000, 2048, 4096⟩⟩], []⟩⟩ } }

/-- A Pod whose init container strictly dominates its main container in
all four dimensions. -/
def pBig : Pod :=
  ⟨"v1", "Pod", "big", ⟨[⟨⟨250, 1000, 2048, 4096⟩⟩], [⟨⟨1000, 2000, 3072, 5120⟩⟩]⟩⟩

/-- A usage record for the Total witness. -/
def uA : ResourceUsage :=
  ⟨⟨100, 100, 100, 100⟩, ⟨200, 150, 300, 120⟩, ⟨"apps/v1", "Deployment", "a", "", 1, 1⟩⟩

/-- A second usage record for the Total witness. -/
def uB : ResourceUsage :=
  ⟨⟨50, 60, 70, 80⟩, ⟨550, 80, 90, 100⟩, ⟨"apps/v1", "Deployment", "b", "", 1, 1⟩⟩

/-- A Resources value whose cpu request milli-value `2^53 + 1` is not
exactly representable as a float64. -/
def rBig : Resources := ⟨9007199254740993, 0, 0, 0⟩

/-- A small Resources value, exactly representable as float64s. -/
def rEx : Resources := ⟨250, 500, 64, 256⟩

/-! Theorems. -/

/-- `f64roundNat` is the identity below `2^53`. -/
theorem f64roundNat_eq_of_le (n : Nat) (h : n ≤ 2 ^ 53) : f64roundNat n = n := by
  unfold f64roundNat
  rw [if_pos h]

/-- `f64round` is the identity on integers whose magnitude is at most
`2^53` (they are exactly representable as float64s). -/
theorem f64round_eq_of_natAbs_le (x : Int) (h : x.natAbs ≤ 2 ^ 53) : f64round x = x := by
  unfold f64round
  rw [f64roundNat_eq_of_le _ h]
  split
  · omega
  · omega

/-- `maxQuantity` returns its second argument when the first is
strictly smaller. -/
theorem maxQuantity_eq_right (q1 q2 : Int) (h : q1 < q2) : maxQuantity q1 q2 = q2 := by
  unfold maxQuantity
  rw [if_neg (by omega)]

/-- Claim C9, counterexample: the claim quantifies over every Resources
value, but `Mul(1.0)` goes through a float64 round-trip, so at a cpu
request milli-value of `2^53 + 1` (a constructible quantity,
"9007199254740993m") the product rounds to `2^53` and the identity
fails. -/
theorem resources_mul_one_counterexample : rBig.Mul 1 ≠ rBig := by decide

/-- Claim C9, amended: `r.Add(zero) == r` holds for every Resources
value; `r.Mul(1.0) == r` holds for every Resources value all four of
whose milli-values are exactly representable as float64, in particular
whenever each magnitude is at most `2^53`. -/
theorem resources_identity_laws :
    (∀ r : Resources, r.Add Resources.zero = r) ∧
    (∀ r : Resources,
      r.CPUMin.natAbs ≤ 2 ^ 53 → r.CPUMax.natAbs ≤ 2 ^ 53 →
      r.MemoryMin.natAbs ≤ 2 ^ 53 → r.MemoryMax.natAbs ≤ 2 ^ 53 →
      r.Mul 1 = r) := by
  constructor
  · intro r
    simp [Resources.Add, Resources.zero]
  · intro r h1 h2 h3 h4
    simp [Resources.Mul, mulFactor, mul_one, f64round_eq_of_natAbs_le r.CPUMin h1,
      f64round_eq_of_natAbs_le r.CPUMax h2, f64round_eq_of_natAbs_le r.MemoryMin h3,
      f64round_eq_of_natAbs_le r.MemoryMax h4]

/-- Witness for `resources_identity_laws` at a concrete small value. -/
theorem resources_identity_laws_witness :
    rEx.Add Resources.zero = rEx ∧ rEx.Mul 1 = rEx :=
  ⟨resources_identity_laws.1 rEx,
    resources_identity_laws.2 rEx (by decide) (by decide) (by decide) (by decide)⟩

/-- Projecting one dimension out of the rollout-summing fold of
`Total`. -/
theorem foldl_Add_rollout_proj (f : Resources → Int)
    (hf : ∀ a b : Resources, f (a.Add b) = f a + f b) :
    ∀ (l : List ResourceUsage) (acc : Resources),
      f (l.foldl (fun a u => a.Add u.RolloutResources) acc) =
        f acc + (l.map fun u => f u.RolloutResources).sum := by
  intro l
  induction l with
  | nil => intro acc; simp
  | cons x xs ih =>
      intro acc
      simp only [List.foldl_cons, List.map_cons, List.sum_cons]
      rw [ih, hf]
      omega

/-- Claim C4: with a negative `maxRollout`, `Total` is the element-wise
sum of `RolloutResources` over the whole list, in all four
dimensions. -/
theorem total_unlimited (maxRollout : Int) (usages : List ResourceUsage)
    (h : maxRollout < 0) :
    (Total maxRollout usages).CPUMin = (usages.map fun u => u.RolloutResources.CPUMin).sum ∧
    (Total maxRollout usages).CPUMax = (usages.map fun u => u.RolloutResources.CPUMax).sum ∧
    (Total maxRollout usages).MemoryMin =
      (usages.map fun u => u.RolloutResources.MemoryMin).sum ∧
    (Total maxRollout usages).MemoryMax =
      (usages.map fun u => u.RolloutResources.MemoryMax).sum := by
  unfold Total
  rw [if_pos h]
  refine ⟨?_, ?_, ?_, ?_⟩
  · rw [foldl_Add_rollout_proj (fun r => r.CPUMin) (fun a b => rfl)]
    simp [Resources.zero]
  · rw [foldl_Add_rollout_proj (fun r => r.CPUMax) (fun a b => rfl)]
    simp [Resources.zero]
  · rw [foldl_Add_rollout_proj (fun r => r.MemoryMin) (fun a b => rfl)]
    simp [Resources.zero]
  · rw [foldl_Add_rollout_proj (fun r => r.MemoryMax) (fun a b => rfl)]
    simp [Resources.zero]

/-- Witness for `total_unlimited` at `maxRollout = -1` over a concrete
two-element list. -/
theorem total_unlimited_witness :
    (-1 : Int) < 0 ∧
    ((Total (-1) [uA, uB]).CPUMin = ([uA, uB].map fun u => u.RolloutResources.CPUMin).sum ∧
      (Total (-1) [uA, uB]).CPUMax = ([uA, uB].map fun u => u.RolloutResources.CPUMax).sum ∧
      (Total (-1) [uA, uB]).MemoryMin =
        ([uA, uB].map fun u => u.RolloutResources.MemoryMin).sum ∧
      (Total (-1) [uA, uB]).MemoryMax =
        ([uA, uB].map fun u => u.RolloutResources.MemoryMax).sum) :=
  ⟨by decide, total_unlimited (-1) [uA, uB] (by decide)⟩

/-- Claim C6: for Job, CronJob and Pod objects, `NormalResources` is the
per-container sum over ordinary containers and `RolloutResources` is
the element-wise max of the ordinary-container and init-container sums;
when the init-container sums strictly dominate in every dimension, the
rollout total is exactly the init-container sum (never the sum of both
groups). -/
theorem job_cronjob_pod_resources :
    (∀ j : Job,
      (job j).NormalResources = (calcPodResources j.spec.template.spec).Containers ∧
        (job j).RolloutResources = (calcPodResources j.spec.template.spec).MaxResources) ∧
    (∀ c : CronJob,
      (cronjob c).NormalResources =
          (calcPodResources c.spec.jobTemplate.spec.template.spec).Containers ∧
        (cronjob c).RolloutResources =
          (calcPodResources c.spec.jobTemplate.spec.template.spec).MaxResources) ∧
    (∀ p : Pod,
      (pod p).NormalResources = (calcPodResources p.spec).Containers ∧
        (pod p).RolloutResources = (calcPodResources p.spec).MaxResources) ∧
    (∀ p : Pod,
      (calcPodResources p.spec).Containers.CPUMin <
          (calcPodResources p.spec).InitContainers.CPUMin →
      (calcPodResources p.spec).Containers.CPUMax <
          (calcPodResources p.spec).InitContainers.CPUMax →
      (calcPodResources p.spec).Containers.MemoryMin <
          (calcPodResources p.spec).InitContainers.MemoryMin →
      (calcPodResources p.spec).Containers.MemoryMax <
          (calcPodResources p.spec).InitContainers.MemoryMax →
      (pod p).RolloutResources = (calcPodResources p.spec).InitContainers) := by
  refine ⟨fun j => ⟨rfl, rfl⟩, fun c => ⟨rfl, rfl⟩, fun p => ⟨rfl, rfl⟩, ?_⟩
  intro p h1 h2 h3 h4
  show (calcPodResources p.spec).MaxResources = (calcPodResources p.spec).InitContainers
  have hMax : (calcPodResources p.spec).MaxResources =
      { CPUMin :=
          maxQuantity (calcPodResources p.spec).Containers.CPUMin
            (calcPodResources p.spec).InitContainers.CPUMin
        CPUMax :=
          maxQuantity (calcPodResources p.spec).Containers.CPUMax
            (calcPodResources p.spec).InitContainers.CPUMax
        MemoryMin :=
          maxQuantity (calcPodResources p.spec).Containers.MemoryMin
            (calcPodResources p.spec).InitContainers.MemoryMin
        MemoryMax :=
          maxQuantity (calcPodResources p.spec).Containers.MemoryMax
            (calcPodResources p.spec).InitContainers.MemoryMax } := rfl
  rw [hMax, maxQuantity_eq_right _ _ h1, maxQuantity_eq_right _ _ h2,
    maxQuantity_eq_right _ _ h3, maxQuantity_eq_right _ _ h4]

/-- Witness for `job_cronjob_pod_resources` at a pod whose init
container strictly dominates its main container. -/
theorem job_cronjob_pod_resources_witness :
    ((calcPodResources pBig.spec).Containers.CPUMin <
        (calcPodResources pBig.spec).InitContainers.CPUMin) ∧
    ((pod pBig).RolloutResources = (calcPodResources pBig.spec).InitContainers) :=
  ⟨by decide,
    job_cronjob_pod_resources.2.2.2 pBig (by decide) (by decide) (by decide) (by decide)⟩

/-- Claim C3: under OnDelete the StatefulSet calculator takes
`maxUnavailable = replicas`, so the rollout total is
`Containers×(replicas−replicas) + MaxResources×replicas`;
`Details.MaxReplicas = replicas` for every successful result; and for
the concrete 3-replica OnDelete set with 250m pods the rollout cpu
request is 750m. -/
theorem sts_ondelete_and_maxreplicas :
    (∀ (s : StatefulSet) (u : ResourceUsage),
      s.spec.updateStrategy.type = "OnDelete" →
      statefulSet s = Except.ok u →
      u.RolloutResources =
        ((calcPodResources s.spec.template.spec).Containers.MulInt32
            (stsReplicas s - stsReplicas s)).Add
          ((calcPodResources s.spec.template.spec).MaxResources.MulInt32 (stsReplicas s))) ∧
    (∀ (s : StatefulSet) (u : ResourceUsage),
      statefulSet s = Except.ok u → u.Details.MaxReplicas = stsReplicas s) ∧
    (statefulSet sOnDel).map (fun u => u.RolloutResources.CPUMin) = Except.ok 750 := by
  refine ⟨?_, ?_, rfl⟩
  · intro s u ht hu
    have hp : stsParams s.spec.updateStrategy (stsReplicas s) =
        Except.ok (stsReplicas s, s.spec.updateStrategy.type) := by
      unfold stsParams
      rw [if_pos ht]
    unfold statefulSet at hu
    rw [hp] at hu
    simp only [Except.ok.injEq] at hu
    subst hu
    rfl
  · intro s u hu
    unfold statefulSet at hu
    cases hp : stsParams s.spec.updateStrategy (stsReplicas s) with
    | error e => rw [hp] at hu; simp at hu
    | ok pr =>
        rw [hp] at hu
        simp only [Except.ok.injEq] at hu
        subst hu
        rfl

/-- Witness for `sts_ondelete_and_maxreplicas` at the concrete
OnDelete StatefulSet. -/
theorem sts_ondelete_and_maxreplicas_witness :
    sOnDel.spec.updateStrategy.type = "OnDelete" ∧
    statefulSet sOnDel = Except.ok uOnDel ∧
    uOnDel.RolloutResources =
      ((calcPodResources sOnDel.spec.template.spec).Containers.MulInt32
          (stsReplicas sOnDel - stsReplicas sOnDel)).Add
        ((calcPodResources sOnDel.spec.template.spec).MaxResources.MulInt32
          (stsReplicas sOnDel)) ∧
    uOnDel.Details.MaxReplicas = stsReplicas sOnDel :=
  ⟨rfl, rfl, sts_ondelete_and_maxreplicas.1 sOnDel uOnDel rfl rfl,
    sts_ondelete_and_maxreplicas.2.1 sOnDel uOnDel rfl⟩

/-- Claim C7, counterexample: for the strategy type "Foo" the
calculator keeps the zero-initialised `maxUnavailable = 0` (the switch
has no default case), so the rollout cpu request of `sFoo` is 100m,
while the claimed RollingUpdate default `maxUnavailable = 1` would give
500m (the init container's value). -/
theorem sts_unknown_strategy_counterexample :
    (statefulSet sFoo).map (fun u => u.RolloutResources.CPUMin) = Except.ok 100 ∧
    (((calcPodResources sFoo.spec.template.spec).Containers.MulInt32 (stsReplicas sFoo - 1)).Add
        ((calcPodResources sFoo.spec.template.spec).MaxResources.MulInt32 1)).CPUMin = 500 ∧
    (100 : Int) ≠ 500 :=
  ⟨rfl, rfl, by decide⟩

/-- Claim C7, amended: for every StatefulSet whose update-strategy type
is neither OnDelete, RollingUpdate nor empty, the calculator returns no
error, but it does NOT apply the RollingUpdate default: the
zero-initialised `maxUnavailable = 0` stays, so the result is
`rollout = Containers×(replicas−0) + MaxResources×0`,
`normal = Containers×replicas`, the strategy string is reported
unchanged, and `MaxReplicas = replicas`. -/
theorem sts_unknown_strategy (s : StatefulSet)
    (h1 : s.spec.updateStrategy.type ≠ "OnDelete")
    (h2 : s.spec.updateStrategy.type ≠ "")
    (h3 : s.spec.updateStrategy.type ≠ "RollingUpdate") :
    statefulSet s = Except.ok
      { NormalResources :=
          (calcPodResources s.spec.template.spec).Containers.MulInt32 (stsReplicas s)
        RolloutResources :=
          ((calcPodResources s.spec.template.spec).Containers.MulInt32 (stsReplicas s - 0)).Add
            ((calcPodResources s.spec.template.spec).MaxResources.MulInt32 0)
        Details :=
          { Version := s.apiVersion
            Kind := s.kind
            Name := s.name
            Strategy := s.spec.updateStrategy.type
            Replicas := stsReplicas s
            MaxReplicas := stsReplicas s } } := by
  have hp : stsParams s.spec.updateStrategy (stsReplicas s) =
      Except.ok (0, s.spec.updateStrategy.type) := by
    unfold stsParams
    rw [if_neg h1, if_neg (not_or.mpr ⟨h2, h3⟩)]
  unfold statefulSet
  rw [hp]

/-- Witness for `sts_unknown_strategy` at the concrete "Foo"
StatefulSet. -/
theorem sts_unknown_strategy_witness :
    statefulSet sFoo = Except.ok
      { NormalResources :=
          (calcPodResources sFoo.spec.template.spec).Containers.MulInt32 (stsReplicas sFoo)
        RolloutResources :=
          ((calcPodResources sFoo.spec.template.spec).Containers.MulInt32
              (stsReplicas sFoo - 0)).Add
            ((calcPodResources sFoo.spec.template.spec).MaxResources.MulInt32 0)
        Details :=
          { Version := sFoo.apiVersion
            Kind := sFoo.kind
            Name := sFoo.name
            Strategy := sFoo.spec.updateStrategy.type
            Replicas := stsReplicas sFoo
            MaxReplicas := stsReplicas sFoo } } :=
  sts_unknown_strategy sFoo (by decide) (by decide) (by decide)

/-- Claim C5, counterexample: the claim asserts maxUnavailable rounds
DOWN for every workload kind, but the StatefulSet calculator scales its
maxUnavailable rounding UP ("25%" of 10 gives 3, not floor(2.5)=2), so
the rollout cpu request of `sPct` is 2200m where down-rounding would
give 1800m. -/
theorem pct_rounding_counterexample :
    getScaledValueFromIntOrPercent (IntOrString.ofString "25%") 10 true = Except.ok 3 ∧
    Int.fdiv (25 * 10) 100 = 2 ∧
    (statefulSet sPct).map (fun u => u.RolloutResources.CPUMin) = Except.ok 2200 ∧
    (((calcPodResources sPct.spec.template.spec).Containers.MulInt32 (10 - 2)).Add
        ((calcPodResources sPct.spec.template.spec).MaxResources.MulInt32 2)).CPUMin = 1800 ∧
    (2200 : Int) ≠ 1800 :=
  ⟨rfl, rfl, rfl, rfl, by decide⟩

/-- Claim C5, amended: converting a percentage string scales it by
`total/100` with floor when `roundUp` is false and ceiling when
`roundUp` is true; the Deployment calculator converts maxUnavailable
rounding DOWN and maxSurge rounding UP, but the StatefulSet calculator
converts its maxUnavailable rounding UP. -/
theorem pct_scaling_directions :
    (∀ (s : String) (p total : Int),
      s.data.getLast? = some '%' →
      atoiChars s.data.dropLast = some p →
      getScaledValueFromIntOrPercent (IntOrString.ofString s) total false =
          Except.ok (Int.fdiv (p * total) 100) ∧
        getScaledValueFromIntOrPercent (IntOrString.ofString s) total true =
          Except.ok (-(Int.fdiv (-(p * total)) 100))) ∧
    (∀ (ru : RollingUpdateDeployment) (replicas mu ms : Int) (st : String),
      deploymentRollingParams ru replicas = Except.ok (mu, ms, st) →
      getScaledValueFromIntOrPercent ru.maxUnavailable replicas false = Except.ok mu ∧
        getScaledValueFromIntOrPercent ru.maxSurge replicas true = Except.ok ms) ∧
    (∀ (strategy : DeploymentStrategy) (replicas : Int) (ru : RollingUpdateDeployment),
      strategy.type = "RollingUpdate" →
      strategy.rollingUpdate = some ru →
      deploymentParams strategy replicas = deploymentRollingParams ru replicas) ∧
    (∀ (v : IntOrString) (replicas mu : Int) (st : String),
      stsRollingParams v replicas = Except.ok (mu, st) →
      getScaledValueFromIntOrPercent v replicas true = Except.ok mu) ∧
    (∀ (strategy : StatefulSetUpdateStrategy) (replicas : Int) (v : IntOrString),
      strategy.type = "RollingUpdate" →
      strategy.rollingUpdate = some v →
      stsParams strategy replicas = stsRollingParams v replicas) := by
  refine ⟨?_, ?_, ?_, ?_, ?_⟩
  · intro s p total hlast hparse
    constructor
    · simp only [getScaledValueFromIntOrPercent]
      rw [if_pos hlast, hparse]
      simp
    · simp only [getScaledValueFromIntOrPercent]
      rw [if_pos hlast, hparse]
      simp
  · intro ru replicas mu ms st hok
    unfold deploymentRollingParams at hok
    split at hok
    · simp at hok
    · rename_i mu' hmu
      split at hok
      · simp at hok
      · rename_i ms' hms
        split at hok
        · simp at hok
        · simp only [Except.ok.injEq, Prod.mk.injEq] at hok
          obtain ⟨h1, h2, _⟩ := hok
          subst h1; subst h2
          exact ⟨hmu, hms⟩
  · intro strategy replicas ru ht hru
    unfold deploymentParams
    rw [ht, hru]
    rw [if_neg (by decide), if_pos (Or.inr rfl), if_neg (by decide)]
  · intro v replicas mu st hok
    unfold stsRollingParams at hok
    split at hok
    · simp at hok
    · rename_i mu' hmu
      split at hok
      · simp at hok
      · simp only [Except.ok.injEq, Prod.mk.injEq] at hok
        obtain ⟨h1, _⟩ := hok
        subst h1
        exact hmu
  · intro strategy replicas v ht hv
    unfold stsParams
    rw [ht, hv]
    rw [if_neg (by decide), if_pos (Or.inr rfl), if_neg (by decide)]

/-- Witness for `pct_scaling_directions` at "25%" of 10 replicas, and
at the concrete Deployment and StatefulSet strategies. -/
theorem pct_scaling_directions_witness :
    (getScaledValueFromIntOrPercent (IntOrString.ofString "25%") 10 false =
        Except.ok (Int.fdiv (25 * 10) 100) ∧
      getScaledValueFromIntOrPercent (IntOrString.ofString "25%") 10 true =
        Except.ok (-(Int.fdiv (-(25 * 10)) 100))) ∧
    (getScaledValueFromIntOrPercent
          (IntOrString.ofString "25%") 10 false = Except.ok 2 ∧
      getScaledValueFromIntOrPercent (IntOrString.ofString "25%") 10 true = Except.ok 3) ∧
    deploymentParams dEx.spec.strategy 10 =
      deploymentRollingParams ⟨IntOrString.ofString "25%", IntOrString.ofString "25%"⟩ 10 ∧
    getScaledValueFromIntOrPercent (IntOrString.ofString "25%") 10 true = Except.ok 3 ∧
    stsParams sPct.spec.updateStrategy 10 = stsRollingParams (IntOrString.ofString "25%") 10 :=
  ⟨pct_scaling_directions.1 "25%" 25 10 rfl rfl,
    pct_scaling_directions.2.1 ⟨IntOrString.ofString "25%", IntOrString.ofString "25%"⟩
      10 2 3 "RollingUpdate" rfl,
    pct_scaling_directions.2.2.1 dEx.spec.strategy 10
      ⟨IntOrString.ofString "25%", IntOrString.ofString "25%"⟩ rfl rfl,
    pct_scaling_directions.2.2.2.1 (IntOrString.ofString "25%") 10 3 "RollingUpdate" rfl,
    pct_scaling_directions.2.2.2.2 sPct.spec.updateStrategy 10
      (IntOrString.ofString "25%") rfl rfl⟩

/-- Claim C1: for a Deployment with present, non-zero replicas whose
strategy resolves (`deploymentParams` succeeds, i.e. the strategy is
recognised and the scaled thresholds are in range), the rollout-peak
total is
`Containers×(replicas−maxUnavailable) + MaxResources×(maxSurge+maxUnavailable)`,
element-wise in all four dimensions. -/
theorem deployment_rollout_formula
    (d : Deployment) (r mu ms : Int) (st : String) (u : ResourceUsage)
    (hr : d.spec.replicas = some r) (h0 : r ≠ 0)
    (hp : deploymentParams d.spec.strategy r = Except.ok (mu, ms, st))
    (hu : deployment d = some (Except.ok u)) :
    u.RolloutResources =
      ((calcPodResources d.spec.template.spec).Containers.MulInt32 (r - mu)).Add
        ((calcPodResources d.spec.template.spec).MaxResources.MulInt32 (ms + mu)) := by
  unfold deployment at hu
  rw [hr] at hu
  simp only [Option.some.injEq] at hu
  rw [if_neg h0, hp] at hu
  simp only [Except.ok.injEq] at hu
  subst hu
  rfl

/-- Witness for `deployment_rollout_formula` at the Deployment of
examples/deployment.yaml. -/
theorem deployment_rollout_formula_witness :
    dEx.spec.replicas = some 10 ∧
    (10 : Int) ≠ 0 ∧
    deploymentParams dEx.spec.strategy 10 = Except.ok (2, 3, "RollingUpdate") ∧
    deployment dEx = some (Except.ok
      ⟨⟨2500, 5000, 640, 2560⟩, ⟨3250, 6500, 832, 3328⟩,
        ⟨"apps/v1", "Deployment", "myapp", "RollingUpdate", 10, 13⟩⟩) ∧
    (⟨⟨2500, 5000, 640, 2560⟩, ⟨3250, 6500, 832, 3328⟩,
        ⟨"apps/v1", "Deployment", "myapp", "RollingUpdate", 10, 13⟩⟩ :
        ResourceUsage).RolloutResources =
      ((calcPodResources dEx.spec.template.spec).Containers.MulInt32 (10 - 2)).Add
        ((calcPodResources dEx.spec.template.spec).MaxResources.MulInt32 (3 + 2)) :=
  ⟨rfl, by decide, rfl, rfl,
    deployment_rollout_formula dEx 10 2 3 "RollingUpdate"
      ⟨⟨2500, 5000, 640, 2560⟩, ⟨3250, 6500, 832, 3328⟩,
        ⟨"apps/v1", "Deployment", "myapp", "RollingUpdate", 10, 13⟩⟩
      rfl (by decide) rfl rfl⟩

/-- Claim C2: for a Deployment with present, non-zero replicas and
RollingUpdate (or defaulted empty) strategy, `Details.MaxReplicas` is
`replicas + maxSurge`; in particular with 10 replicas and the default
"25%"/"25%" parameters the resolved thresholds are
`maxUnavailable = 2, maxSurge = 3` and `MaxReplicas = 13`. -/
theorem deployment_maxreplicas :
    (∀ (d : Deployment) (r mu ms : Int) (st : String) (u : ResourceUsage),
      d.spec.replicas = some r → r ≠ 0 →
      (d.spec.strategy.type = "" ∨ d.spec.strategy.type = "RollingUpdate") →
      deploymentParams d.spec.strategy r = Except.ok (mu, ms, st) →
      deployment d = some (Except.ok u) →
      u.Details.MaxReplicas = r + ms) ∧
    deploymentParams dDef.spec.strategy 10 = Except.ok (2, 3, "RollingUpdate") ∧
    (deployment dDef).map (Except.map fun u => u.Details.MaxReplicas) =
      some (Except.ok 13) := by
  refine ⟨?_, rfl, rfl⟩
  intro d r mu ms st u hr h0 _ hp hu
  unfold deployment at hu
  rw [hr] at hu
  simp only [Option.some.injEq] at hu
  rw [if_neg h0, hp] at hu
  simp only [Except.ok.injEq] at hu
  subst hu
  rfl

/-- Witness for `deployment_maxreplicas` at the defaulted
RollingUpdate Deployment with 10 replicas. -/
theorem deployment_maxreplicas_witness :
    dDef.spec.replicas = some 10 ∧
    (10 : Int) ≠ 0 ∧
    (dDef.spec.strategy.type = "" ∨ dDef.spec.strategy.type = "RollingUpdate") ∧
    deploymentParams dDef.spec.strategy 10 = Except.ok (2, 3, "RollingUpdate") ∧
    deployment dDef = some (Except.ok
      ⟨⟨2500, 5000, 640, 2560⟩, ⟨3250, 6500, 832, 3328⟩,
        ⟨"apps/v1", "Deployment", "myapp", "RollingUpdate", 10, 13⟩⟩) ∧
    (⟨⟨2500, 5000, 640, 2560⟩, ⟨3250, 6500, 832, 3328⟩,
        ⟨"apps/v1", "Deployment", "myapp", "RollingUpdate", 10, 13⟩⟩ :
        ResourceUsage).Details.MaxReplicas = 10 + 3 :=
  ⟨rfl, by decide, Or.inr rfl, rfl, rfl,
    deployment_maxreplicas.1 dDef 10 2 3 "RollingUpdate"
      ⟨⟨2500, 5000, 640, 2560⟩, ⟨3250, 6500, 832, 3328⟩,
        ⟨"apps/v1", "Deployment", "myapp", "RollingUpdate", 10, 13⟩⟩
      rfl (by decide) (Or.inr rfl) rfl rfl⟩

/-- Claim C8: a Deployment whose `spec.replicas` is (a pointer to) 0
succeeds with the all-zero usage and `MaxReplicas = 0`; the strategy is
never evaluated, only its type string is copied into the details. -/
theorem deployment_zero_replicas (d : Deployment) (h : d.spec.replicas = some 0) :
    deployment d = some (Except.ok
      { NormalResources := Resources.zero
        RolloutResources := Resources.zero
        Details :=
          { Version := d.apiVersion
            Kind := d.kind
            Name := d.name
            Strategy := d.spec.strategy.type
            Replicas := 0
            MaxReplicas := 0 } }) := by
  unfold deployment
  rw [h]
  rfl

/-- Witness for `deployment_zero_replicas` at a zero-replica Deployment
with an unrecognised strategy type. -/
theorem deployment_zero_replicas_witness :
    dZero.spec.replicas = some 0 ∧
    deployment dZero = some (Except.ok
      { NormalResources := Resources.zero
        RolloutResources := Resources.zero
        Details :=
          { Version := dZero.apiVersion
            Kind := dZero.kind
            Name := dZero.name
            Strategy := dZero.spec.strategy.type
            Replicas := 0
            MaxReplicas := 0 } }) :=
  ⟨rfl, deployment_zero_replicas dZero rfl⟩

/-- Claim C10: the deployment calculator dereferences `spec.replicas`
unconditionally, so it is undefined (`none`, the nil-pointer panic)
exactly when replicas is nil, and defined whenever replicas is present;
the StatefulSet calculator instead substitutes the default 1 for a nil
replicas and computes the same result as with an explicit 1. -/
theorem deployment_nil_guard :
    (∀ d : Deployment, deployment d = none ↔ d.spec.replicas = none) ∧
    (∀ s : StatefulSet, s.spec.replicas = none →
      statefulSet s = statefulSet { s with spec := { s.spec with replicas := some 1 } }) := by
  constructor
  · intro d
    constructor
    · intro h
      cases hr : d.spec.replicas with
      | none => rfl
      | some r =>
          unfold deployment at h
          rw [hr] at h
          simp at h
    · intro h
      unfold deployment
      rw [h]
  · intro s h
    unfold statefulSet stsReplicas
    rw [h]

/-- Witness for `deployment_nil_guard` at concrete nil-replica
objects. -/
theorem deployment_nil_guard_witness :
    (deployment dNil = none ↔ dNil.spec.replicas = none) ∧
    sNil.spec.replicas = none ∧
    statefulSet sNil = statefulSet { sNil with spec := { sNil.spec with replicas := some 1 } } :=
  ⟨deployment_nil_guard.1 dNil, rfl, deployment_nil_guard.2 sNil rfl⟩

end KuotaCalc
